import Mathlib

/-!
Shallow embedding of the core data model of the `grok-glow` 2D sprite
renderer: the `Rect` geometry type, `Texture` views and their validation,
the guillotine bin `Packer`, the `TexturePack` atlas allocator, the
`Shader` construction control flow and the `SpriteBatch` draw loop.

GPU interactions (GL calls) are abstracted: texture allocation and
uploads are modelled as succeeding, since the properties under study
concern the pure validation and bookkeeping logic that runs before and
around the GL calls.  All `u32` arithmetic is modelled on `Nat`; every
input considered here is far below `2^32`, and the single subtraction in
the packer (`rect.size - target`) is guarded by `can_fit`, so `Nat`
truncated subtraction agrees with the `u32` source.
-/

namespace GrokGlow

/-- General purpose 2D rectangle, from `src/rect.rs`: a position and a
size, here at element type `Nat` (the source instantiates `Rect<u32>`
for textures). -/
structure Rect where
  pos : Nat × Nat
  size : Nat × Nat
deriving Repr, DecidableEq

/-- `Rect::can_fit` from `src/rect.rs`: checks whether `other` can fit
inside this rectangle, comparing positions and sizes componentwise. -/
def Rect.can_fit (self other : Rect) : Bool :=
  other.pos.1 ≥ self.pos.1
    && other.pos.2 ≥ self.pos.2
    && other.size.1 ≤ self.size.1
    && other.size.2 ≤ self.size.2

/-- The library error enum from `src/errors.rs`.  The `InvalidSubTexture`
variant is the one constructed by `Texture::new_sub` in `src/texture.rs`
(carrying the source view rectangle and the requested target rectangle);
it appears in the spec's error surface (§4.8). -/
inductive Error where
  | InvalidTextureSize (width height : Nat)
  | InvalidSubTexture (source target : Rect)
  | InvalidImageData (expected actual : Nat)
  | OpenGl (code : Nat)
  | OpenGlMessage (msg : String)
deriving Repr, DecidableEq

/-- The logical content of `Texture` from `src/texture.rs`: the original
allocation size in texels and the view rectangle into it.  The raw GL
handle and the shared-ownership `Rc` are not needed for the properties
studied here. -/
structure Texture where
  orig_size : Nat × Nat
  rect : Rect
deriving Repr, DecidableEq

/-- `Texture::validate_size`: zero-dimension check. -/
def Texture.validate_size (width height : Nat) : Except Error Unit :=
  if width == 0 || height == 0 then
    .error (.InvalidTextureSize width height)
  else
    .ok ()

/-- `Texture::is_power_of_two`: the bitwise test `n != 0 && (n & n - 1) == 0`.
The `n != 0` guard short-circuits, so the `u32` subtraction never
underflows and the `Nat` translation is exact. -/
def Texture.is_power_of_two (n : Nat) : Bool :=
  n != 0 && (n &&& (n - 1) == 0)

/-- `Texture::new` from `src/texture.rs`.  The graphics device is
abstracted to the single bit the validation logic reads:
`npot_available`, the result of querying the
`GL_ARB_texture_non_power_of_two` extension.  The GL allocation path is
modelled as succeeding, yielding a texture whose view rectangle covers
the whole allocation. -/
def Texture.new (npot_available : Bool) (width height : Nat) :
    Except Error Texture := do
  Texture.validate_size width height
  if !npot_available then
    if !Texture.is_power_of_two width || !Texture.is_power_of_two height then
      throw (.InvalidTextureSize width height)
  pure { orig_size := (width, height), rect := ⟨(0, 0), (width, height)⟩ }

/-- `Texture::new_sub` from `src/texture.rs`: build a view into the same
allocation after checking `self.rect.can_fit(target_rect)` and the
zero-size validation, in that order. -/
def Texture.new_sub (self : Texture) (pos size : Nat × Nat) :
    Except Error Texture :=
  let target_rect : Rect := ⟨pos, size⟩
  if !(self.rect.can_fit target_rect) then
    .error (.InvalidSubTexture self.rect target_rect)
  else do
    Texture.validate_size size.1 size.2
    pure { orig_size := self.orig_size, rect := target_rect }

/-- `Texture::update_sub_data` from `src/texture.rs`, up to the GL
upload: the only check performed before `glTexSubImage2D` is that the
data length equals `size.w * size.h * 4`; `pos` is passed to GL
unexamined (the source carries a TODO noting the absent rectangle
validation).  The GL upload itself is modelled as succeeding. -/
def Texture.update_sub_data (self : Texture) (pos size : Nat × Nat)
    (dataLen : Nat) : Except Error Unit :=
  let _ := self
  let _ := pos
  let expected_len := size.1 * size.2 * 4
  if dataLen != expected_len then
    .error (.InvalidImageData expected_len dataLen)
  else
    .ok ()

/-- The private `Rectangle` struct of `src/texture_pack.rs` (distinct
from `Rect`): position and size of a packer node. -/
structure Rectangle where
  pos : Nat × Nat
  size : Nat × Nat
deriving Repr, DecidableEq

/-- `Rectangle::can_fit` from `src/texture_pack.rs`: the target size
fits componentwise (positions play no role here). -/
def Rectangle.can_fit (self : Rectangle) (other : Nat × Nat) : Bool :=
  other.1 ≤ self.size.1 && other.2 ≤ self.size.2

/-- `RectNode` from `src/texture_pack.rs`: a node of the binary-heap
guillotine tree. -/
inductive RectNode where
  | Vacant
  | Closed
  | Leaf (rect : Rectangle)
  | Branch (rect : Rectangle)
deriving Repr, DecidableEq

/-- `Packer` from `src/texture_pack.rs`: the heap array of nodes, the
count of available leaves, and the (unused) padding. -/
structure Packer where
  rects : List RectNode
  available : Nat
  padding : Nat
deriving Repr, DecidableEq

/-- `Packer::new`: a single root leaf covering the whole region. -/
def Packer.new (width height : Nat) : Packer :=
  { rects := [RectNode.Leaf ⟨(0, 0), (width, height)⟩]
    available := 1
    padding := 0 }

/-- `Packer::has_space`. -/
def Packer.has_space (self : Packer) : Bool :=
  self.available > 0

/-- `Packer::set_child_rect`: store a child as a `Leaf` when its
residual area is non-empty (incrementing `available`), else `Closed`. -/
def Packer.set_child_rect (self : Packer) (index : Nat) (rect : Rectangle) :
    Packer :=
  if rect.size.1 > 0 && rect.size.2 > 0 then
    { self with
      rects := self.rects.set index (RectNode.Leaf rect)
      available := self.available + 1 }
  else
    { self with rects := self.rects.set index RectNode.Closed }

/-- `Packer::insert_internal` from `src/texture_pack.rs`, written with
explicit state passing (the Rust `&mut self` mutates only on the
successful `Leaf` arm, so a failing recursive call leaves the state
unchanged).  The recursion on heap indices `2i+1`, `2i+2` is bounded by
a fuel argument; since the index at depth `d` is at least `2^d - 1` and
out-of-range nodes read as `Vacant`, fuel `rects.length + 1` (supplied
by `try_insert`) is always sufficient, so the fuel never runs out and
the model agrees with the source.  The `Vacant` arm is the source's
`unreachable!` panic; it is never taken on states reachable from
`Packer::new`. -/
def Packer.insert_internal (target : Nat × Nat) :
    Nat → Packer → Nat → Option ((Nat × Nat) × Packer)
  | 0, _, _ => none
  | fuel + 1, p, index =>
    match p.rects.getD index RectNode.Vacant with
    | RectNode.Vacant => none
    | RectNode.Closed => none
    | RectNode.Leaf rect =>
      if rect.can_fit target then
        let slot := rect.pos
        -- Claim node for the target.
        let p1 : Packer :=
          { p with rects := p.rects.set index (RectNode.Branch ⟨rect.pos, target⟩) }
        let right := index * 2 + 1
        let bottom := index * 2 + 2
        -- Ensure the vector can contain the children.
        let p2 : Packer :=
          if bottom ≥ p1.rects.length then
            { p1 with
              rects := p1.rects ++
                List.replicate (bottom + 1 - p1.rects.length) RectNode.Vacant }
          else p1
        let p3 := p2.set_child_rect right
          ⟨(slot.1 + target.2, slot.2), (rect.size.1 - target.1, target.2)⟩
        let p4 := p3.set_child_rect bottom
          ⟨(slot.1, slot.2 + target.2), (rect.size.1, rect.size.2 - target.2)⟩
        some (slot, { p4 with available := p4.available - 1 })
      else
        none
    | RectNode.Branch _ =>
      -- Recursive search: right node takes precedence, bottom on failure.
      match Packer.insert_internal target fuel p (index * 2 + 1) with
      | some r => some r
      | none => Packer.insert_internal target fuel p (index * 2 + 2)

/-- `Packer::try_insert`. -/
def Packer.try_insert (self : Packer) (width height : Nat) :
    Option ((Nat × Nat) × Packer) :=
  if self.rects.isEmpty then
    none
  else
    Packer.insert_internal (width, height) (self.rects.length + 1) self 0

/-- `TexturePack` from `src/texture_pack.rs`.  The source field `open`
is a Lean keyword, so it is rendered `openAtlases` here. -/
structure TexturePack where
  openAtlases : List (Texture × Packer)
  closed : List Texture
  min_size : Nat × Nat
  padding : Nat
deriving Repr, DecidableEq

/-- `TexturePack::DEFAULT_DIM`. -/
def TexturePack.DEFAULT_DIM : Nat := 1024

/-- `TexturePack::with_size` from `src/texture_pack.rs`.  Note the
source builds the initial packer as `Packer::new(width, width)`. -/
def TexturePack.with_size (npot_available : Bool) (width height : Nat) :
    Except Error TexturePack := do
  let t ← Texture.new npot_available width height
  pure { openAtlases := [(t, Packer.new width width)]
         closed := []
         min_size := (width, height)
         padding := 1 }

/-- Result of `TexturePack::add_image_data`: a returned sub-texture view
together with the updated pack, a returned error, or the panic of
`maybe_new.unwrap()` when the retried insert on a freshly allocated
atlas finds no slot (the branch guarded by the source's
`debug_assert!(maybe_new.is_some())`). -/
inductive AddImageResult where
  | ok (view : Texture) (pack : TexturePack)
  | err (e : Error)
  | panicUnwrap
deriving Repr, DecidableEq

/-- The `for (texture, packer) in &mut self.open` scan inside
`TexturePack::add_image_data`: try each open pair in order, and on the
first successful insert return the texture, the slot, and the open list
with that pair's packer updated. -/
def TexturePack.scanOpen (w h : Nat) :
    List (Texture × Packer) →
    Option ((Texture × (Nat × Nat)) × List (Texture × Packer))
  | [] => none
  | (t, pk) :: rest =>
    match pk.try_insert w h with
    | some (slot, pk2) => some ((t, slot), (t, pk2) :: rest)
    | none =>
      match TexturePack.scanOpen w h rest with
      | some (found, rest2) => some (found, (t, pk) :: rest2)
      | none => none

/-- `TexturePack::add_image_data` from `src/texture_pack.rs`.  Image
data is abstracted to its length (the only attribute the control flow
reads).  GL texture allocation and upload are modelled as succeeding,
as in `Texture.new` / `Texture.update_sub_data` above. -/
def TexturePack.add_image_data (self : TexturePack) (npot_available : Bool)
    (width height dataLen : Nat) : AddImageResult :=
  -- Upfront validations.
  if width == 0 || height == 0 then
    .err (.InvalidTextureSize width height)
  else
    let expected_len := width * height * 4
    if expected_len != dataLen then
      .err (.InvalidImageData expected_len dataLen)
    else
      let padded_width := width + self.padding * 2
      let padded_height := height + self.padding * 2
      -- Look for a texture with space.
      match TexturePack.scanOpen padded_width padded_height self.openAtlases with
      | some ((texture, slot_pos), openAtlases2) =>
        let padded_x := slot_pos.1 + self.padding
        let padded_y := slot_pos.2 + self.padding
        match texture.update_sub_data (padded_x, padded_y) (width, height) dataLen with
        | .error e => .err e
        | .ok () =>
          match texture.new_sub (padded_x, padded_y) (width, height) with
          | .error e => .err e
          | .ok view => .ok view { self with openAtlases := openAtlases2 }
      | none =>
        -- No available space left in the open set.
        let new_tex_width := min padded_width TexturePack.DEFAULT_DIM
        let new_tex_height := min padded_height TexturePack.DEFAULT_DIM
        match Texture.new npot_available new_tex_width new_tex_height with
        | .error e => .err e
        | .ok texture =>
          let packer := Packer.new new_tex_width new_tex_height
          match packer.try_insert padded_width padded_height with
          | none => .panicUnwrap
          | some (slot_pos, packer2) =>
            let padded_x := slot_pos.1 + self.padding
            let padded_y := slot_pos.2 + self.padding
            match texture.update_sub_data (padded_x, padded_y) (width, height) dataLen with
            | .error e => .err e
            | .ok () =>
              match texture.new_sub (padded_x, padded_y) (width, height) with
              | .error e => .err e
              | .ok view =>
                .ok view
                  { self with
                    openAtlases := self.openAtlases ++ [(texture, packer2)] }

/-- Outcome of `Shader::from_source` from `src/shader.rs`: the function
returns `Self` directly, so the only alternative to success is a panic
carrying an info log. -/
inductive ShaderOutcome where
  | ok
  | panicked (log : String)
deriving Repr, DecidableEq

/-- The slice of GL behaviour `Shader::from_source` observes, keyed by
the shader source string handed to `shader_source`: per-source compile
status and info log, plus the program link status and info log. -/
structure GlShaderBehavior where
  compile_status : String → Bool
  shader_info_log : String → String
  link_status : Bool
  program_info_log : String

/-- The `for (shader_type, shader_source) in shader_sources` loop of
`Shader::from_source`: compile each stage in order and panic with the
stage's info log on the first compile failure; `none` means all stages
compiled and were attached. -/
def Shader.compile_stages (gl : GlShaderBehavior) :
    List String → Option String
  | [] => none
  | src :: rest =>
    if !(gl.compile_status src) then
      some (gl.shader_info_log src)
    else
      Shader.compile_stages gl rest

/-- `Shader::from_source` from `src/shader.rs`: compile the vertex and
fragment stages in order, then link; each failing status check executes
a `panic!` carrying the corresponding info log. -/
def Shader.from_source (gl : GlShaderBehavior) (vertex fragment : String) :
    ShaderOutcome :=
  match Shader.compile_stages gl [vertex, fragment] with
  | some log => .panicked log
  | none =>
    if !gl.link_status then
      .panicked gl.program_info_log
    else
      .ok

/-- `Vertex` from `src/vertex.rs` as built by `SpriteBatch::draw`.  The
source fields are `f32`; the positions pushed by `draw` are sums of an
`i32` sprite position and a `u32` sprite size, both exactly
representable at the magnitudes in scope, so they are carried as `Int`
here.  UVs and color only ever take the constant values `0`/`1`. -/
structure Vertex where
  position : Int × Int
  uv : Nat × Nat
  color : Nat × Nat × Nat × Nat
deriving Repr, DecidableEq

/-- `BatchItem` from `src/sprite_batch.rs`: the position and size copied
from the sprite and the raw GL handle of its texture (the handle is what
`draw` compares and binds). -/
structure BatchItem where
  pos : Int × Int
  size : Nat × Nat
  texture : Nat
deriving Repr, DecidableEq

/-- `SpriteBatch` state between calls: the pending items and the vertex
and index staging vectors.  The GPU-side `vertex_buffer` holds no logic
observed by the properties studied here. -/
structure SpriteBatch where
  items : List BatchItem
  vertices : List Vertex
  indices : List Nat
deriving Repr, DecidableEq

/-- `SpriteBatch::BATCH_SIZE`. -/
def SpriteBatch.BATCH_SIZE : Nat := 2048

/-- `SpriteBatch::flush` observed as the indexed draw calls it issues:
it returns early (no draw call) when `vertices` is empty, and otherwise
issues one `glDrawElements` with `indices.len()` indices. -/
def SpriteBatch.flushEmit (vertices : List Vertex) (indices : List Nat) :
    List Nat :=
  if vertices.isEmpty then [] else [indices.length]

/-- The loop-local state of `SpriteBatch::draw`: the staging vectors,
`batch_count`, `last_texture`, and the index counts of the draw calls
issued so far. -/
structure DrawState where
  vertices : List Vertex
  indices : List Nat
  batch_count : Nat
  last_texture : Option Nat
  flushes : List Nat
deriving Repr, DecidableEq

/-- One iteration of the `for item in items.drain(..)` loop of
`SpriteBatch::draw`: flush-and-reset when the batch is full, then
flush-and-reset-and-rebind when the texture changes, then push the four
quad vertices and six indices and increment `batch_count`. -/
def SpriteBatch.drawStep (item : BatchItem) (s : DrawState) : DrawState :=
  let s1 :=
    if SpriteBatch.BATCH_SIZE ≤ s.batch_count then
      { s with
        vertices := []
        indices := []
        batch_count := 0
        flushes := s.flushes ++ SpriteBatch.flushEmit s.vertices s.indices }
    else s
  let s2 :=
    if s1.last_texture ≠ some item.texture then
      { s1 with
        vertices := []
        indices := []
        batch_count := 0
        last_texture := some item.texture
        flushes := s1.flushes ++ SpriteBatch.flushEmit s1.vertices s1.indices }
    else s1
  let x := item.pos.1
  let y := item.pos.2
  let w : Int := item.size.1
  let h : Int := item.size.2
  let i := s2.batch_count * 4
  { s2 with
    vertices := s2.vertices ++
      [ { position := (x, y), uv := (0, 0), color := (1, 1, 1, 1) }
      , { position := (x + w, y), uv := (1, 0), color := (1, 1, 1, 1) }
      , { position := (x + w, y + h), uv := (1, 1), color := (1, 1, 1, 1) }
      , { position := (x, y + h), uv := (0, 1), color := (1, 1, 1, 1) } ]
    indices := s2.indices ++ [i, i + 1, i + 2, i, i + 2, i + 3]
    batch_count := s2.batch_count + 1 }

/-- The item loop of `SpriteBatch::draw` followed by the trailing
`if batch_count > 0` flush. -/
def SpriteBatch.drawLoop : List BatchItem → DrawState → DrawState
  | [], s =>
    if 0 < s.batch_count then
      { s with
        vertices := []
        indices := []
        batch_count := 0
        flushes := s.flushes ++ SpriteBatch.flushEmit s.vertices s.indices }
    else s
  | item :: rest, s => SpriteBatch.drawLoop rest (SpriteBatch.drawStep item s)

/-- `SpriteBatch::draw` from `src/sprite_batch.rs`, observed as the
final batch state and the list of index counts of the indexed draw
calls issued.  GL binding calls carry no state the properties read.
`items.drain(..)` leaves `items` empty on the non-trivial path. -/
def SpriteBatch.draw (b : SpriteBatch) : SpriteBatch × List Nat :=
  if b.items.isEmpty then
    (b, [])
  else
    let s := SpriteBatch.drawLoop b.items
      { vertices := b.vertices
        indices := b.indices
        batch_count := 0
        last_texture := none
        flushes := [] }
    ({ items := [], vertices := s.vertices, indices := s.indices }, s.flushes)

/-- Overlap of two half-open axis-aligned rectangles given by position
and size, as in the spec's notion of two returned slots intersecting. -/
def rectsOverlap (pos1 size1 pos2 size2 : Nat × Nat) : Bool :=
  pos1.1 < pos2.1 + size2.1 && pos2.1 < pos1.1 + size1.1
    && pos1.2 < pos2.2 + size2.2 && pos2.2 < pos1.2 + size1.2

/-- A GL behaviour on which every shader compile fails with a fixed
info log. -/
def failingCompileGl : GlShaderBehavior :=
  { compile_status := fun _ => false
    shader_info_log := fun _ => "0:1(1): error: syntax error"
    link_status := true
    program_info_log := "" }

/-- C1: claimed right-child placement.  Inserting a 60 wide, 20 high
target into a fresh 100-by-100 packer claims the root leaf at slot
`(0,0)`; the right child written into the heap at index 1 sits at
`x = slot.x + 20` (the target height), not at `x = slot.x + 60` (the
target width) as the claim states. -/
theorem packer_right_child_uses_target_height :
    (((Packer.new 100 100).try_insert 60 20).map
        (fun r => r.2.rects.getD 1 RectNode.Vacant))
      = some (RectNode.Leaf ⟨(0 + 20, 0), (100 - 60, 20)⟩)
    ∧ (((Packer.new 100 100).try_insert 60 20).map
        (fun r => r.2.rects.getD 1 RectNode.Vacant))
      ≠ some (RectNode.Leaf ⟨(0 + 60, 0), (100 - 60, 20)⟩) := by
  decide

/-- C2: claimed overlap-freedom of returned slots.  On a fresh
100-by-100 packer, inserting `(60,20)` and then `(40,20)` (total
claimed area 2000 ≤ 10000) returns slots `(0,0)` and `(20,0)`, whose
claimed rectangles overlap. -/
theorem packer_returns_overlapping_slots :
    (((Packer.new 100 100).try_insert 60 20).bind
        (fun r1 => (r1.2.try_insert 40 20).map (fun r2 => (r1.1, r2.1))))
      = some ((0, 0), (20, 0))
    ∧ rectsOverlap (0, 0) (60, 20) (20, 0) (40, 20) = true
    ∧ 60 * 20 + 40 * 20 ≤ 100 * 100 := by
  decide

/-- C3: sub-view chaining on a 256-by-256 texture.  The chained
`new_sub((0,0),(128,128))` then `new_sub((64,64),(32,32))` yields the
claimed view, but `new_sub((100,100),(40,40))` on the 128-by-128 view
returns `Ok` with a view extending to 140 texels — not the claimed
`InvalidSubTexture` error — because `can_fit` never compares
`pos + size` against the view bounds. -/
theorem new_sub_accepts_out_of_bounds_region :
    (do
      let t ← Texture.new true 256 256
      let a ← t.new_sub (0, 0) (128, 128)
      a.new_sub (64, 64) (32, 32))
      = Except.ok { orig_size := (256, 256), rect := ⟨(64, 64), (32, 32)⟩ }
    ∧ (do
      let t ← Texture.new true 256 256
      let a ← t.new_sub (0, 0) (128, 128)
      a.new_sub (100, 100) (40, 40))
      = Except.ok { orig_size := (256, 256), rect := ⟨(100, 100), (40, 40)⟩ } :=
  ⟨rfl, rfl⟩

/-- C4: `TexturePack::with_size(device, 256, 128)` produces an initial
pair whose texture is 256-by-128 but whose packer region is 256-by-256,
because the source passes `width` for both packer dimensions; the
claimed invariant fails on the initial pair. -/
theorem with_size_packer_region_ignores_height :
    (TexturePack.with_size true 256 128).toOption.map
        (fun pk => pk.openAtlases.map (fun pair => (pair.1.orig_size, pair.2.rects)))
      = some [((256, 128), [RectNode.Leaf ⟨(0, 0), (256, 256)⟩])]
    ∧ ((256, 256) : Nat × Nat) ≠ (256, 128) := by
  decide

/-- C5 counterexample: with every stage compile failing, `from_source`
panics carrying the shader info log; the outcome is a control-flow
escape, not a returned error value (the library error enum has no
`ShaderCompile`/`ShaderLink` variants at all). -/
theorem from_source_compile_failure_panics :
    Shader.from_source failingCompileGl "bad vertex" "fragment"
      = ShaderOutcome.panicked "0:1(1): error: syntax error"
    ∧ ShaderOutcome.panicked "0:1(1): error: syntax error" ≠ ShaderOutcome.ok := by
  decide

/-- C5 amended: `Shader::from_source` panics with the first failing
stage's shader info log when a compile status is false, and with the
program info log when the link status is false; only otherwise does it
return normally. -/
theorem from_source_panics_on_failure (gl : GlShaderBehavior)
    (vertex fragment : String) :
    Shader.from_source gl vertex fragment =
      (if gl.compile_status vertex = false then
        ShaderOutcome.panicked (gl.shader_info_log vertex)
      else if gl.compile_status fragment = false then
        ShaderOutcome.panicked (gl.shader_info_log fragment)
      else if gl.link_status = false then
        ShaderOutcome.panicked gl.program_info_log
      else
        ShaderOutcome.ok) := by
  cases hv : gl.compile_status vertex <;>
    cases hf : gl.compile_status fragment <;>
      cases hl : gl.link_status <;>
        simp [Shader.from_source, Shader.compile_stages, hv, hf, hl]

/-- C6: with only the full default 1024-by-1024 atlas open, adding a
1023-by-1 image (valid data length 4092) pads to 1025-by-3, allocates
a new atlas clamped to 1024-by-3, and the retried insert fails: the
function reaches the `unwrap` panic that the claim calls unreachable. -/
theorem add_image_data_retry_panics :
    (TexturePack.with_size true 1024 1024).toOption.map
        (fun pk => pk.add_image_data true 1023 1 (1023 * 1 * 4))
      = some AddImageResult.panicUnwrap := by
  decide

/-- C7: a batch holding, in order, three sprites of texture `a`, two of
texture `b` and one of `a` (with `a ≠ b`) issues exactly three indexed
draw calls, with index counts 18, 12 and 6. -/
theorem draw_flushes_per_texture_run (a b : Nat) (hab : a ≠ b) :
    (SpriteBatch.draw
      { items :=
          [ ⟨(0, 0), (1, 1), a⟩, ⟨(0, 0), (1, 1), a⟩, ⟨(0, 0), (1, 1), a⟩
          , ⟨(0, 0), (1, 1), b⟩, ⟨(0, 0), (1, 1), b⟩
          , ⟨(0, 0), (1, 1), a⟩ ]
        vertices := []
        indices := [] }).2 = [18, 12, 6] := by
  have hba : b ≠ a := Ne.symm hab
  simp [SpriteBatch.draw, SpriteBatch.drawLoop, SpriteBatch.drawStep,
    SpriteBatch.flushEmit, SpriteBatch.BATCH_SIZE, hab, hba]

/-- Witness for C7 at textures 0 and 1. -/
theorem draw_flushes_per_texture_run_witness :
    (SpriteBatch.draw
      { items :=
          [ ⟨(0, 0), (1, 1), 0⟩, ⟨(0, 0), (1, 1), 0⟩, ⟨(0, 0), (1, 1), 0⟩
          , ⟨(0, 0), (1, 1), 1⟩, ⟨(0, 0), (1, 1), 1⟩
          , ⟨(0, 0), (1, 1), 0⟩ ]
        vertices := []
        indices := [] }).2 = [18, 12, 6] :=
  draw_flushes_per_texture_run 0 1 (by decide)

/-- Each loop iteration leaves `batch_count` positive. -/
theorem drawStep_batch_count_pos (item : BatchItem) (s : DrawState) :
    0 < (SpriteBatch.drawStep item s).batch_count := by
  simp [SpriteBatch.drawStep]

/-- After the item loop and trailing flush, the staging vectors are
empty whenever the loop body ran at least once (nonempty items) or the
trailing flush fires. -/
theorem drawLoop_clears (items : List BatchItem) :
    ∀ s : DrawState, 0 < s.batch_count ∨ items ≠ [] →
      (SpriteBatch.drawLoop items s).vertices = []
      ∧ (SpriteBatch.drawLoop items s).indices = [] := by
  induction items with
  | nil =>
    intro s h
    have hbc : 0 < s.batch_count := h.resolve_right (fun hne => hne rfl)
    simp [SpriteBatch.drawLoop, hbc]
  | cons item rest ih =>
    intro s _
    simp only [SpriteBatch.drawLoop]
    exact ih _ (Or.inl (drawStep_batch_count_pos item s))

/-- C8: from any batch state satisfying the between-calls invariant
(empty staging vectors), `draw` returns with `items`, `vertices` and
`indices` all empty — including the early-return path on empty
`items`. -/
theorem draw_clears_containers (b : SpriteBatch)
    (hv : b.vertices = []) (hi : b.indices = []) :
    (SpriteBatch.draw b).1.items = []
    ∧ (SpriteBatch.draw b).1.vertices = []
    ∧ (SpriteBatch.draw b).1.indices = [] := by
  unfold SpriteBatch.draw
  by_cases hempty : b.items.isEmpty
  · have : b.items = [] := List.isEmpty_iff.mp hempty
    simp [hempty, this, hv, hi]
  · have hne : b.items ≠ [] := by
      intro hcon
      exact hempty (by simp [hcon])
    have h := drawLoop_clears b.items
      { vertices := b.vertices, indices := b.indices, batch_count := 0
        last_texture := none, flushes := [] } (Or.inr hne)
    simp [hempty, h.1, h.2]

/-- Witness for C8: a batch with one pending item and empty staging
vectors. -/
theorem draw_clears_containers_witness :
    (SpriteBatch.draw ⟨[⟨(0, 0), (1, 1), 5⟩], [], []⟩).1.items = []
    ∧ (SpriteBatch.draw ⟨[⟨(0, 0), (1, 1), 5⟩], [], []⟩).1.vertices = []
    ∧ (SpriteBatch.draw ⟨[⟨(0, 0), (1, 1), 5⟩], [], []⟩).1.indices = [] :=
  draw_clears_containers ⟨[⟨(0, 0), (1, 1), 5⟩], [], []⟩ rfl rfl

/-- C9: `Texture::new` returns `InvalidTextureSize(w, h)` exactly when a
dimension is zero, or the device lacks the non-power-of-two extension
and a dimension fails the power-of-two test; only otherwise does it
proceed to allocate, yielding a full-allocation view. -/
theorem texture_new_validates (npot : Bool) (w h : Nat) :
    Texture.new npot w h =
      (if w = 0 ∨ h = 0 then
        Except.error (Error.InvalidTextureSize w h)
      else if npot = false ∧
          (Texture.is_power_of_two w = false ∨ Texture.is_power_of_two h = false) then
        Except.error (Error.InvalidTextureSize w h)
      else
        Except.ok { orig_size := (w, h), rect := ⟨(0, 0), (w, h)⟩ }) := by
  cases hw : w == 0 <;> cases hh : h == 0 <;> cases hnp : npot <;>
    cases hpw : Texture.is_power_of_two w <;>
      cases hph : Texture.is_power_of_two h <;>
        simp_all [Texture.new, Texture.validate_size, beq_iff_eq,
          Bind.bind, Except.bind, Functor.map, Except.map, throw, throwThe,
          MonadExceptOf.throw, pure, Except.pure]

/-- C10: `Texture::update_sub_data` validates only the data length
against `4·size.w·size.h`; the result does not depend on `pos` (or on
the texture's view rectangle), so an out-of-view region with a matching
length is accepted. -/
theorem update_sub_data_checks_only_length (t : Texture)
    (pos size : Nat × Nat) (dataLen : Nat) :
    t.update_sub_data pos size dataLen =
      (if dataLen = size.1 * size.2 * 4 then
        Except.ok ()
      else
        Except.error (Error.InvalidImageData (size.1 * size.2 * 4) dataLen)) := by
  by_cases hlen : dataLen = size.1 * size.2 * 4 <;>
    simp [Texture.update_sub_data, hlen]

end GrokGlow
